import Mathlib

/-!
Verification development for the `codeswitch` SQL conversion tool
(`src/codeswitch/claude.py`).

The tool's only nontrivial logic is regular-expression based extraction of
database/schema hints from SQL text (`extract_database_schema`), extraction
of a fenced SQL block from a model response (`convert_code`), textual cleanup
before the conversion call (`process_sql_code`), and a sequential batch loop
packaging results into an archive (`main` / `create_zip_file`).

We embed the relevant Python semantics shallowly:
* strings are `List Char`;
* `None` vs a string value is `Option (List Char)`;
* Python exceptions are `Except String`;
* the regular expressions are transcribed into an explicit pattern AST `RE`
  and executed by a backtracking matcher with Python `re` semantics
  (leftmost match, ordered alternation, greedy character-class quantifiers
  with backtracking, `\b` word boundaries, `$` end anchor, `re.IGNORECASE`).
-/

/-! ## Python string/char helpers -/

/-- Python `\s` and `str.strip()` whitespace, restricted to the ASCII range
(`' '`, `\t`, `\n`, `\r`, `\x0b`, `\x0c`); inputs are modelled as ASCII text. -/
def isPySpace (c : Char) : Bool :=
  c == ' ' || c == '\t' || c == '\n' || c == '\r' || c == '\x0b' || c == '\x0c'

/-- Python `\w` (word character) on ASCII: alphanumeric or underscore. -/
def isWordChar (c : Char) : Bool :=
  c.isAlphanum || c == '_'

/-- Case-insensitive character comparison, as `re.IGNORECASE` acts on ASCII. -/
def eqCI (a b : Char) : Bool :=
  a.toLower == b.toLower

/-- Python `str.strip()`: remove leading and trailing whitespace. -/
def pyStrip (s : List Char) : List Char :=
  ((s.dropWhile isPySpace).reverse.dropWhile isPySpace).reverse

/-- Python `a or b` on optional strings: `None` and `""` are falsy. -/
def pyOr (a b : Option (List Char)) : Option (List Char) :=
  match a with
  | some v => if v.isEmpty then b else some v
  | none => b

/-- Python `not s` for an optional string: true on `None` and `""`. -/
def pyFalsyOpt (o : Option (List Char)) : Bool :=
  match o with
  | some v => v.isEmpty
  | none => true

/-! ## Capture groups

Named groups of the source regexes are keyed by their (1-based) group number;
the name-to-number correspondence is noted at each pattern below. -/

/-- Capture environment of one regex match. -/
abbrev Caps := List (Nat × List Char)

/-- `m.group(g)`: the captured text, `none` when the group did not participate. -/
def capLookup (caps : Caps) (g : Nat) : Option (List Char) :=
  match caps with
  | [] => none
  | (g', v) :: rest => if g' == g then some v else capLookup rest g

/-- Record a capture (later entries shadow earlier ones for the same group). -/
def capSet (caps : Caps) (g : Nat) (v : List Char) : Caps :=
  (g, v) :: caps

/-- `\g` in an `re.sub` replacement template: unset groups expand to `""`. -/
def capGetD (caps : Caps) (g : Nat) : List Char :=
  (capLookup caps g).getD []

/-! ## Pattern AST

Just the constructs appearing in the source's regexes.  Every quantifier in
those regexes ranges over a single character class, and every capture group
wraps either one greedy `+` over a class or one alternation of literal words,
so the AST fuses those combinations. -/

inductive RE where
  /-- empty pattern -/
  | epsR : RE
  /-- single-character class `[...]` / `[^...]` -/
  | chc : (Char → Bool) → RE
  /-- literal word, compared case-insensitively (`re.IGNORECASE`) -/
  | lit : List Char → RE
  /-- concatenation -/
  | cat : RE → RE → RE
  /-- ordered alternation `a|b` (Python tries the left branch first) -/
  | alt : RE → RE → RE
  /-- greedy `[...]​*` over a character class -/
  | starC : (Char → Bool) → RE
  /-- capture group wrapping a greedy `[...]+` over a character class -/
  | grpPlus : Nat → (Char → Bool) → RE
  /-- capture group wrapping an ordered alternation of literal words -/
  | grpAlts : Nat → List (List Char) → RE
  /-- word boundary `\b` -/
  | wordB : RE
  /-- `$` without `re.MULTILINE`: end of text, or just before a final newline -/
  | eos : RE

/-- Sequence a list of patterns. -/
def sqC (rs : List RE) : RE :=
  rs.foldr RE.cat RE.epsR

/-- `r?` (greedy: try `r` first, as Python does). -/
def optR (r : RE) : RE :=
  RE.alt r RE.epsR

/-- Non-capturing greedy `[...]+` over a character class. -/
def plusC (p : Char → Bool) : RE :=
  RE.cat (RE.chc p) (RE.starC p)

/-- `lit` from a string literal. -/
def litS (s : String) : RE :=
  RE.lit s.toList

/-- `\s+` -/
def plusS : RE := plusC isPySpace

/-- `\s*` -/
def starS : RE := RE.starC isPySpace

/-! ## Backtracking matcher

The matcher threads the previous character (for `\b`), the remaining input,
and the captures, in continuation-passing style.  A continuation returning
`none` makes the matcher backtrack, exactly as Python's engine does: ordered
alternation tries the left branch first, and greedy quantifiers give back
characters one at a time from the maximal run. -/

/-- Result of a successful match attempt: previous character at the match
end, remaining input, captures. -/
abbrev MRes := Option (Option Char × List Char × Caps)

/-- Maximal run of characters satisfying `p`: `(run, rest)`. -/
def pyRun (p : Char → Bool) : List Char → List Char × List Char
  | [] => ([], [])
  | c :: cs =>
    if p c then
      let t := pyRun p cs
      (c :: t.1, t.2)
    else ([], c :: cs)

/-- All ways to split a maximal run `taken` (followed by `rest`) into a
consumed part and a remainder, in ascending order of consumed length.
Each entry is `(previous character after the consumed part, consumed part,
remainder)`; `base` is the previous character before the run. -/
def grpSplits (base : Option Char) : List Char → List Char → List (Option Char × List Char × List Char)
  | [], rest => [ (base, [], rest) ]
  | c :: cs, rest =>
    (base, [], c :: cs ++ rest) ::
      (grpSplits (some c) cs rest).map (fun t => (t.1, c :: t.2.1, t.2.2))

/-- First successful attempt in a candidate list (backtracking priority). -/
def firstSome (f : α → Option β) : List α → Option β
  | [] => none
  | a :: as' =>
    match f a with
    | some b => some b
    | none => firstSome f as'

/-- Match a literal word case-insensitively, then continue. -/
def litK : List Char → Option Char → List Char → Caps →
    (Option Char → List Char → Caps → MRes) → MRes
  | [], prev, s, caps, k => k prev s caps
  | c :: cs, _, s, caps, k =>
    match s with
    | [] => none
    | x :: t => if eqCI c x then litK cs (some x) t caps k else none

/-- Match a literal word case-insensitively, recording the consumed input
characters (with their original case, as Python captures do). -/
def litCapK : List Char → Option Char → List Char →
    (Option Char → List Char → List Char → Option (Option Char × List Char × Caps)) →
    MRes
  | [], prev, s, k => k prev s []
  | c :: cs, _, s, k =>
    match s with
    | [] => none
    | x :: t =>
      if eqCI c x then
        litCapK cs (some x) t (fun p2 s2 con => k p2 s2 (x :: con))
      else none

/-- Previous-character flag for `\b`: out of range counts as non-word. -/
def isWordO (o : Option Char) : Bool :=
  match o with
  | some c => isWordChar c
  | none => false

/-- Next-character flag for `\b`. -/
def isWordH (s : List Char) : Bool :=
  match s with
  | c :: _ => isWordChar c
  | [] => false

/-- Python `$` without `re.MULTILINE`. -/
def pyEos (s : List Char) : Bool :=
  s.isEmpty || s == [ '\n' ]

/-- The matcher.  `mmatch r prev s caps k` attempts `r` at the start of `s`
(`prev` is the character just before `s`), extending `caps`, and calls the
continuation `k` on success; `none` from `k` triggers backtracking. -/
def mmatch : RE → Option Char → List Char → Caps →
    (Option Char → List Char → Caps → MRes) → MRes
  | RE.epsR, prev, s, caps, k => k prev s caps
  | RE.chc p, _, s, caps, k =>
    match s with
    | [] => none
    | c :: t => if p c then k (some c) t caps else none
  | RE.lit cs, prev, s, caps, k => litK cs prev s caps k
  | RE.cat a b, prev, s, caps, k =>
    mmatch a prev s caps (fun p2 s2 c2 => mmatch b p2 s2 c2 k)
  | RE.alt a b, prev, s, caps, k =>
    match mmatch a prev s caps k with
    | some r => some r
    | none => mmatch b prev s caps k
  | RE.starC p, prev, s, caps, k =>
    let pr := pyRun p s
    firstSome (fun c => k c.1 c.2.2 caps) ((grpSplits prev pr.1 pr.2).reverse)
  | RE.grpPlus g p, prev, s, caps, k =>
    let pr := pyRun p s
    firstSome (fun c => k c.1 c.2.2 (capSet caps g c.2.1))
      (((grpSplits prev pr.1 pr.2).reverse).filter (fun c => !c.2.1.isEmpty))
  | RE.grpAlts g alts, prev, s, caps, k =>
    firstSome
      (fun cs => litCapK cs prev s (fun p2 s2 con => k p2 s2 (capSet caps g con)))
      alts
  | RE.wordB, prev, s, caps, k =>
    if isWordO prev != isWordH s then k prev s caps else none
  | RE.eos, prev, s, caps, k =>
    if pyEos s then k prev s caps else none

/-- `re.search` scan: try the pattern at each position, leftmost first.
On success returns `(skipped prefix, input suffix at the match position,
captures, previous character at the match end, remaining input)`. -/
def searchFrom (pat : RE) : Option Char → List Char → List Char →
    Option (List Char × List Char × Caps × Option Char × List Char)
  | prev, s, skipped =>
    match mmatch pat prev s [] (fun p2 s2 c2 => some (p2, s2, c2)) with
    | some r => some (skipped.reverse, s, r.2.2, r.1, r.2.1)
    | none =>
      match s with
      | [] => none
      | c :: t => searchFrom pat (some c) t (c :: skipped)

/-- `re.search(pat, s)`, keeping only the captures (`None` on no match). -/
def reSearch (pat : RE) (s : List Char) : Option Caps :=
  (searchFrom pat none s []).map (fun r => r.2.2.1)

/-! ## The source regexes, transcribed

Group numbers follow the order of capture groups in each pattern. -/

/-- MSSQL `use_db_pattern`:
`USE\s+\[?(?P<database>[^\]\s;]+)\]?\s*;` (IGNORECASE).
Group 1 = `database`. -/
def usePat : RE :=
  sqC [ litS "USE", plusS, optR (litS "["),
        RE.grpPlus 1 (fun c => !(c == ']' || isPySpace c || c == ';')),
        optR (litS "]"), starS, litS ";" ]

/-- MSSQL `create_pattern`:
`CREATE\s+(?:PROCEDURE|TABLE)\s+(?:\[(?P<schema>[^\]\.;]+)\]|\b(?P<schema2>[^\.\s;]+)\b)\.(?:\[(?P<object>[^\]\s;]+)\]|(?P<object2>[^\s;(\[]+))\s*(?:[(\[]|$)`
(IGNORECASE).  Group 1 = `schema`, 2 = `schema2`, 3 = `object`, 4 = `object2`. -/
def mssqlCreatePat : RE :=
  sqC [ litS "CREATE", plusS, RE.alt (litS "PROCEDURE") (litS "TABLE"), plusS,
        RE.alt
          (sqC [ litS "[",
                 RE.grpPlus 1 (fun c => !(c == ']' || c == '.' || c == ';')),
                 litS "]" ])
          (sqC [ RE.wordB,
                 RE.grpPlus 2 (fun c => !(c == '.' || isPySpace c || c == ';')),
                 RE.wordB ]),
        litS ".",
        RE.alt
          (sqC [ litS "[",
                 RE.grpPlus 3 (fun c => !(c == ']' || isPySpace c || c == ';')),
                 litS "]" ])
          (RE.grpPlus 4 (fun c => !(isPySpace c || c == ';' || c == '(' || c == '['))),
        starS, RE.alt (RE.chc (fun c => c == '(' || c == '[')) RE.eos ]

/-- Oracle `schema_pattern`:
`CREATE\s+(?:TABLE|PROCEDURE|FUNCTION)\s+(?:"?(?P<schema>[^"\.;]+)"?|\b(?P<schema2>[^\.\s;]+)\b)\.(?:"?(?P<object>[^"\s;]+)"?|\b(?P<object2>[^\s;(\[]+)\b)\s*(?:[(\[]|$)`
(IGNORECASE).  Group 1 = `schema`, 2 = `schema2`, 3 = `object`, 4 = `object2`. -/
def oracleCreatePat : RE :=
  sqC [ litS "CREATE", plusS,
        RE.alt (litS "TABLE") (RE.alt (litS "PROCEDURE") (litS "FUNCTION")), plusS,
        RE.alt
          (sqC [ optR (litS "\""),
                 RE.grpPlus 1 (fun c => !(c == '"' || c == '.' || c == ';')),
                 optR (litS "\"") ])
          (sqC [ RE.wordB,
                 RE.grpPlus 2 (fun c => !(c == '.' || isPySpace c || c == ';')),
                 RE.wordB ]),
        litS ".",
        RE.alt
          (sqC [ optR (litS "\""),
                 RE.grpPlus 3 (fun c => !(c == '"' || isPySpace c || c == ';')),
                 optR (litS "\"") ])
          (sqC [ RE.wordB,
                 RE.grpPlus 4 (fun c => !(isPySpace c || c == ';' || c == '(' || c == '[')),
                 RE.wordB ]),
        starS, RE.alt (RE.chc (fun c => c == '(' || c == '[')) RE.eos ]

/-- PostgreSQL `search_path_pattern`:
`SET\s+search_path\s+TO\s+(?P<schema>[^,;]+)\s*[,;]` (IGNORECASE).
Group 1 = `schema`. -/
def searchPathPat : RE :=
  sqC [ litS "SET", plusS, litS "search_path", plusS, litS "TO", plusS,
        RE.grpPlus 1 (fun c => !(c == ',' || c == ';')),
        starS, RE.chc (fun c => c == ',' || c == ';') ]

/-- PostgreSQL `schema_pattern`:
`CREATE\s+(?:TABLE|FUNCTION|PROCEDURE)\s+(?:(?P<schema>[^\.;]+)\.)?(?P<object>[^\s;(\[]+)\s*(?:[(\[]|$)`
(IGNORECASE).  Group 1 = `schema`, 2 = `object`. -/
def pgCreatePat : RE :=
  sqC [ litS "CREATE", plusS,
        RE.alt (litS "TABLE") (RE.alt (litS "FUNCTION") (litS "PROCEDURE")), plusS,
        optR (sqC [ RE.grpPlus 1 (fun c => !(c == '.' || c == ';')), litS "." ]),
        RE.grpPlus 2 (fun c => !(isPySpace c || c == ';' || c == '(' || c == '[')),
        starS, RE.alt (RE.chc (fun c => c == '(' || c == '[')) RE.eos ]

/-! ## `extract_database_schema` -/

/-- The source dialect selected in the sidebar (`st.selectbox` offers exactly
these three values). -/
inductive SourceType where
  | MSSQL : SourceType
  | Oracle : SourceType
  | PostgreSQL : SourceType

/-- MSSQL: `use_db_match.group('database').strip() if use_db_match else None`.
`m.group(...).strip()` raises `AttributeError` when the group expression is
`None`, modelled in `Except`. -/
def mssqlDatabase (text : List Char) : Except String (Option (List Char)) :=
  match reSearch usePat text with
  | some caps =>
    match capLookup caps 1 with
    | some v => Except.ok (some (pyStrip v))
    | none => Except.error "AttributeError"
  | none => Except.ok none

/-- MSSQL:
`(create_match.group('schema') or create_match.group('schema2')).strip() if create_match else "dbo"`. -/
def mssqlSchema (text : List Char) : Except String (Option (List Char)) :=
  match reSearch mssqlCreatePat text with
  | some caps =>
    match pyOr (capLookup caps 1) (capLookup caps 2) with
    | some v => Except.ok (some (pyStrip v))
    | none => Except.error "AttributeError"
  | none => Except.ok (some ( "dbo".toList))

/-- Oracle:
`(schema_match.group('schema') or schema_match.group('schema2')).strip() if schema_match else None`. -/
def oracleSchema (text : List Char) : Except String (Option (List Char)) :=
  match reSearch oracleCreatePat text with
  | some caps =>
    match pyOr (capLookup caps 1) (capLookup caps 2) with
    | some v => Except.ok (some (pyStrip v))
    | none => Except.error "AttributeError"
  | none => Except.ok none

/-- PostgreSQL:
`search_path_match.group('schema').strip() if search_path_match else None`. -/
def pgSchemaFirst (text : List Char) : Except String (Option (List Char)) :=
  match reSearch searchPathPat text with
  | some caps =>
    match capLookup caps 1 with
    | some v => Except.ok (some (pyStrip v))
    | none => Except.error "AttributeError"
  | none => Except.ok none

/-- PostgreSQL fallback:
`schema_match.group('schema').strip() if schema_match and schema_match.group('schema') else "public"`
(the guard tests Python truthiness of the raw group, so no exception can
occur here). -/
def pgSchemaFallback (text : List Char) : Option (List Char) :=
  match reSearch pgCreatePat text with
  | some caps =>
    match capLookup caps 1 with
    | some v => if v.isEmpty then some ( "public".toList) else some (pyStrip v)
    | none => some ( "public".toList)
  | none => some ( "public".toList)

/-- Body of `extract_database_schema` (the code inside its `try`).
In the Oracle branch `database = schema`; in the PostgreSQL branch
`database = None` and the fallback runs only `if not schema`. -/
def extractBody (text : List Char) (st : SourceType) :
    Except String (Option (List Char) × Option (List Char)) :=
  match st with
  | SourceType.MSSQL =>
    match mssqlDatabase text with
    | Except.error e => Except.error e
    | Except.ok database =>
      match mssqlSchema text with
      | Except.error e => Except.error e
      | Except.ok schema => Except.ok (database, schema)
  | SourceType.Oracle =>
    match oracleSchema text with
    | Except.error e => Except.error e
    | Except.ok schema => Except.ok (schema, schema)
  | SourceType.PostgreSQL =>
    match pgSchemaFirst text with
    | Except.error e => Except.error e
    | Except.ok schema0 =>
      Except.ok (none, if pyFalsyOpt schema0 then pgSchemaFallback text else schema0)

/-- The `try`/`except` boundary of `extract_database_schema`: any exception
from the body is caught and converted to `(None, None)`. -/
def tryExceptBoundary
    (body : List Char → SourceType → Except String (Option (List Char) × Option (List Char)))
    (text : List Char) (st : SourceType) : Option (List Char) × Option (List Char) :=
  match body text st with
  | Except.ok r => r
  | Except.error _ => (none, none)

/-- `extract_database_schema(sql_code, source_type)`. -/
def extract_database_schema (text : List Char) (st : SourceType) :
    Option (List Char) × Option (List Char) :=
  tryExceptBoundary extractBody text st

/-! ## `convert_code`: fenced-block extraction from the model response -/

/-- Python `str.find(needle)` on the text after dropping a start offset:
relative index of the first occurrence, `none` for `-1`. -/
def pyFindRel (needle : List Char) : List Char → Option Nat
  | [] => if needle.isPrefixOf [] then some 0 else none
  | h@(_ :: t) =>
    if needle.isPrefixOf h then some 0 else (pyFindRel needle t).map (· + 1)

/-- Python `hay.find(needle, start)`: lowest index `≥ start` where `needle`
occurs, `none` for `-1`. -/
def pyFind (needle hay : List Char) (start : Nat) : Option Nat :=
  (pyFindRel needle (hay.drop start)).map (· + start)

/-- Python `needle in hay` (contiguous substring test). -/
def containsSub (needle hay : List Char) : Bool :=
  (pyFind needle hay 0).isSome

/-- Python `str.lower()` (ASCII). -/
def pyLower (s : List Char) : List Char :=
  s.map Char.toLower

/-- The fence-open token searched for in the response. -/
def fenceOpen : List Char := "```sql".toList

/-- The fence-close token searched for after the open token. -/
def fenceClose : List Char := "```".toList

/-- The incomplete-conversion phrases checked (lower-case, as in the source). -/
def incompletePhrases : List (List Char) :=
  [ "continue with".toList, "incomplete".toList, "not supported".toList ]

/-- The post-processing of the model response inside `convert_code`:
`start_index = response_text.find("```sql")`,
`end_index = response_text.find("```", start_index + 6)`, slice, strip,
then the incomplete-conversion phrase check on the lower-cased block. -/
def extract_sql_block (resp : List Char) : Option (List Char) :=
  match pyFind fenceOpen resp 0 with
  | none => none
  | some i =>
    match pyFind fenceClose resp (i + 6) with
    | none => none
    | some j =>
      let block := pyStrip ((resp.drop (i + 6)).take (j - (i + 6)))
      if incompletePhrases.any (fun p => containsSub p (pyLower block)) then none
      else some block

/-- `convert_code`, with the opaque API call abstracted as its outcome:
an exception from `client.messages.create` is caught and yields `None`;
otherwise the response text is post-processed by `extract_sql_block`. -/
def convert_code (api : Except String (List Char)) : Option (List Char) :=
  match api with
  | Except.error _ => none
  | Except.ok resp => extract_sql_block resp

/-! ## `process_sql_code`: textual cleanup (`re.sub` / `str.replace`) -/

/-- First `re.sub` pattern of `process_sql_code`:
`USE\s+\[?[^\]\s;]+\]?\s*;` (IGNORECASE), no capture groups. -/
def subUsePat : RE :=
  sqC [ litS "USE", plusS, optR (litS "["),
        plusC (fun c => !(c == ']' || isPySpace c || c == ';')),
        optR (litS "]"), starS, litS ";" ]

/-- Second `re.sub` pattern of `process_sql_code`:
`CREATE\s+(TABLE|PROCEDURE|FUNCTION)\s+(?:\[(?P<schema>[^\]\.;]+)\]|\b(?P<schema2>[^\.\s;]+)\b)\.(?:\[(?P<object>[^\]\s;]+)\]|(?P<object2>[^\s;(\[]+))\s*(?:[(\[]|$)`
(IGNORECASE).  Group 1 = keyword, 2 = `schema`, 3 = `schema2`, 4 = `object`,
5 = `object2`. -/
def subCreatePat : RE :=
  sqC [ litS "CREATE", plusS,
        RE.grpAlts 1 [ "TABLE".toList, "PROCEDURE".toList, "FUNCTION".toList ], plusS,
        RE.alt
          (sqC [ litS "[",
                 RE.grpPlus 2 (fun c => !(c == ']' || c == '.' || c == ';')),
                 litS "]" ])
          (sqC [ RE.wordB,
                 RE.grpPlus 3 (fun c => !(c == '.' || isPySpace c || c == ';')),
                 RE.wordB ]),
        litS ".",
        RE.alt
          (sqC [ litS "[",
                 RE.grpPlus 4 (fun c => !(c == ']' || isPySpace c || c == ';')),
                 litS "]" ])
          (RE.grpPlus 5 (fun c => !(isPySpace c || c == ';' || c == '(' || c == '['))),
        starS, RE.alt (RE.chc (fun c => c == '(' || c == '[')) RE.eos ]

/-- Replacement template of the first `re.sub`: the empty string. -/
def subUseTmpl : Caps → List Char := fun _ => []

/-- Replacement template of the second `re.sub`: `CREATE \1 \2\4`
(groups that did not participate expand to the empty string). -/
def subCreateTmpl (caps : Caps) : List Char :=
  "CREATE ".toList ++ capGetD caps 1 ++ " ".toList ++ capGetD caps 2 ++ capGetD caps 4

/-- `re.sub` driver: repeatedly find the leftmost match and replace it,
continuing after the match; an empty match is replaced and one character is
copied (both patterns here start with a nonempty literal, so the empty-match
branch is unreachable and the fuel `|s| + 1` suffices). -/
def gsubAux (pat : RE) (tmpl : Caps → List Char) : Nat → Option Char → List Char → List Char
  | 0, _, s => s
  | Nat.succ fuel, prev, s =>
    match searchFrom pat prev s [] with
    | none => s
    | some r =>
      if r.2.1.length == r.2.2.2.2.length then
        r.1 ++ tmpl r.2.2.1 ++
          (match r.2.2.2.2 with
           | [] => []
           | c :: t => c :: gsubAux pat tmpl fuel (some c) t)
      else r.1 ++ tmpl r.2.2.1 ++ gsubAux pat tmpl fuel r.2.2.2.1 r.2.2.2.2

/-- `re.sub(pat, tmpl, s)`. -/
def pySub (pat : RE) (tmpl : Caps → List Char) (s : List Char) : List Char :=
  gsubAux pat tmpl (s.length + 1) none s

/-- Python `s.replace(c, "")` for a one-character needle: delete every
occurrence of `c`. -/
def removeAll (c : Char) (s : List Char) : List Char :=
  s.filter (fun x => !(x == c))

/-- The `cleaned_sql` computed by `process_sql_code`: strip `USE ...;`
clauses, strip `CREATE ... schema.object` qualifiers, then delete all
remaining `[` and `]` characters. -/
def cleanedSql (sql : List Char) : List Char :=
  removeAll ']' (removeAll '['
    (pySub subCreatePat subCreateTmpl (pySub subUsePat subUseTmpl sql)))

/-- `process_sql_code(sql_code, source_type, target_type, conversion_type)`,
with the conversion call abstracted as `convert` (it receives the cleaned
SQL); returns `(converted_code, database, schema)`. -/
def process_sql_code (convert : List Char → Option (List Char))
    (sql : List Char) (st : SourceType) :
    Option (List Char) × Option (List Char) × Option (List Char) :=
  let ds := extract_database_schema sql st
  (convert (cleanedSql sql), ds.1, ds.2)

/-! ## The batch loop of `main` and `create_zip_file` -/

/-- `os.path.basename`: the part after the last `/`. -/
def basename (s : List Char) : List Char :=
  ((s.reverse.takeWhile (fun c => !(c == '/'))).reverse)

/-- One iteration of the `for uploaded_file in uploaded_files` loop of
`main`: the file's content is converted, and the result is appended to
`converted_files` only when it is truthy (`if converted_code:` — `None` and
`""` are skipped).  `conv` abstracts `process_sql_code`'s first component
for the fixed conversion options. -/
def loopStep (conv : List Char → Option (List Char))
    (acc : List (List Char × List Char)) (file : List Char × List Char) :
    List (List Char × List Char) :=
  match conv file.2 with
  | some out => if out.isEmpty then acc else acc ++ [ (basename file.1, out) ]
  | none => acc

/-- The whole batch loop of `main`, accumulating `converted_files`. -/
def mainLoop (conv : List Char → Option (List Char))
    (files : List (List Char × List Char)) : List (List Char × List Char) :=
  files.foldl (loopStep conv) []

/-- `create_zip_file`: write each `(file_name, converted_code)` entry into
the archive in order; the archive is modelled by its entry list. -/
def create_zip_file (converted_files : List (List Char × List Char)) :
    List (List Char × List Char) :=
  converted_files.foldl (fun arch e => arch ++ [ e ]) []

/-! ## Concrete inputs used by counterexamples, amended claims and witnesses -/

/-- The substring required by claim C2 (with a concrete parameter list). -/
def mssqlClaimText : List Char :=
  "USE [Sales];CREATE PROCEDURE dbo.GetOrders (@id INT) AS SELECT 1;".toList

/-- A C2 counterexample input: an earlier `USE [Other];` clause precedes the
required substring. -/
def ceMssql : List Char :=
  "USE [Other];".toList ++ mssqlClaimText

/-- Prefix family for the amended C2: inputs beginning with
`USE [Sales];` then `CREATE PROCEDURE dbo.GetOrders (`. -/
def mssqlPrefix : List Char :=
  "USE [Sales];\nCREATE PROCEDURE dbo.GetOrders (".toList

/-- A C3 counterexample input: an earlier `search_path` clause precedes
`SET search_path TO reporting;`. -/
def cePg3 : List Char :=
  "SET search_path TO other;SET search_path TO reporting;".toList

/-- Prefix family for the amended C3. -/
def pgSearchPathPrefix : List Char :=
  "SET search_path TO reporting;".toList

/-- A C4 counterexample input: no `search_path` clause, and an earlier
`CREATE TABLE a.b` precedes `CREATE TABLE public.customers (...)`. -/
def cePg4 : List Char :=
  "CREATE TABLE a.b (x INT);CREATE TABLE public.customers (y INT);".toList

/-- Prefix family for the amended C4. -/
def pgCreatePrefix : List Char :=
  "CREATE TABLE public.customers (".toList

/-! ## Claim theorems: `extract_database_schema` -/

/-- C1: `extract_database_schema` never raises past its boundary: whenever
the body of its `try` block signals an exception, the function returns
`(None, None)` instead of propagating it; `extract_database_schema` is
exactly this boundary applied to the extraction body. -/
theorem extract_database_schema_boundary :
    (∀ (body : List Char → SourceType →
          Except String (Option (List Char) × Option (List Char)))
        (text : List Char) (st : SourceType) (e : String),
        body text st = Except.error e →
        tryExceptBoundary body text st = (none, none)) ∧
    extract_database_schema = tryExceptBoundary extractBody := by
  constructor
  · intro body text st e h
    unfold tryExceptBoundary
    rw [h]
  · rfl

/-- Witness for C1 at a concrete erroring body. -/
theorem extract_database_schema_boundary_witness :
    tryExceptBoundary (fun _ _ => Except.error "boom") [] SourceType.MSSQL =
      (none, none) :=
  extract_database_schema_boundary.1 (fun _ _ => Except.error "boom")
    [] SourceType.MSSQL "boom" rfl

/-- C2 counterexample: `ceMssql` contains `USE [Sales];` followed by a
`CREATE PROCEDURE dbo.GetOrders (...)` header, yet extraction returns
database `"Other"` (the earlier `USE [Other];` clause wins), not `"Sales"`. -/
theorem mssql_use_sales_counterexample :
    containsSub mssqlClaimText ceMssql = true ∧
    extract_database_schema ceMssql SourceType.MSSQL =
      (some ( "Other".toList), some ( "dbo".toList)) ∧
    (extract_database_schema ceMssql SourceType.MSSQL).1 ≠ some ( "Sales".toList) := by
  decide

/-- C2 amended: for every MSSQL input that begins with `USE [Sales];`
followed by `CREATE PROCEDURE dbo.GetOrders (` (so that these are the first
matches of the respective patterns), extraction returns
`("Sales", "dbo")`, whatever the rest of the input is. -/
theorem mssql_use_sales_amended :
    ∀ r : List Char,
      extract_database_schema (mssqlPrefix ++ r) SourceType.MSSQL =
        (some ( "Sales".toList), some ( "dbo".toList)) :=
  fun _ => rfl

/-- C3 counterexample: `cePg3` contains `SET search_path TO reporting;`,
yet extraction returns schema `"other"` (the earlier `search_path` clause
wins), not `"reporting"`. -/
theorem pg_search_path_counterexample :
    containsSub pgSearchPathPrefix cePg3 = true ∧
    extract_database_schema cePg3 SourceType.PostgreSQL =
      (none, some ( "other".toList)) ∧
    (extract_database_schema cePg3 SourceType.PostgreSQL).2 ≠
      some ( "reporting".toList) := by
  decide

/-- C3 amended: for every PostgreSQL input that begins with
`SET search_path TO reporting;` (so that this is the first match of the
`search_path` pattern), extraction returns `(None, "reporting")`, whatever
the rest of the input is. -/
theorem pg_search_path_amended :
    ∀ r : List Char,
      extract_database_schema (pgSearchPathPrefix ++ r) SourceType.PostgreSQL =
        (none, some ( "reporting".toList)) :=
  fun _ => rfl

/-- C4 counterexample: `cePg4` has no `search_path` clause and contains
`CREATE TABLE public.customers (...)`, yet extraction returns schema `"a"`
(the earlier `CREATE TABLE a.b` qualifier wins), not `"public"`. -/
theorem pg_fallback_counterexample :
    reSearch searchPathPat cePg4 = none ∧
    containsSub pgCreatePrefix cePg4 = true ∧
    extract_database_schema cePg4 SourceType.PostgreSQL =
      (none, some ( "a".toList)) ∧
    (extract_database_schema cePg4 SourceType.PostgreSQL).2 ≠
      some ( "public".toList) := by
  decide

/-- C4 amended: for a PostgreSQL input with no `search_path` clause that
begins with `CREATE TABLE public.customers (` (so that this is the first
match of the CREATE pattern), extraction returns `(None, "public")`; more
generally, when the `search_path` clause is absent the schema falls back to
the first CREATE-pattern match's qualifier group (stripped), defaulting to
`"public"` when that match's qualifier group is falsy (absent or empty) and
when there is no CREATE-pattern match at all — always with database `None`. -/
theorem pg_fallback_amended :
    (∀ r : List Char,
        reSearch searchPathPat (pgCreatePrefix ++ r) = none →
        extract_database_schema (pgCreatePrefix ++ r) SourceType.PostgreSQL =
          (none, some ( "public".toList))) ∧
    (∀ (text : List Char) (caps : Caps) (v : List Char),
        reSearch searchPathPat text = none →
        reSearch pgCreatePat text = some caps →
        capLookup caps 1 = some v → v ≠ [] →
        extract_database_schema text SourceType.PostgreSQL =
          (none, some (pyStrip v))) ∧
    (∀ (text : List Char) (caps : Caps),
        reSearch searchPathPat text = none →
        reSearch pgCreatePat text = some caps →
        pyFalsyOpt (capLookup caps 1) = true →
        extract_database_schema text SourceType.PostgreSQL =
          (none, some ( "public".toList))) ∧
    (∀ text : List Char,
        reSearch searchPathPat text = none →
        reSearch pgCreatePat text = none →
        extract_database_schema text SourceType.PostgreSQL =
          (none, some ( "public".toList))) := by
  refine ⟨?_, ?_, ?_, ?_⟩
  · intro r h
    unfold extract_database_schema tryExceptBoundary extractBody pgSchemaFirst
    rw [h]
    rfl
  · intro text caps v h1 h2 h3 h4
    unfold extract_database_schema tryExceptBoundary extractBody pgSchemaFirst
      pgSchemaFallback
    rw [h1]
    have hv : v.isEmpty = false := by simpa using h4
    simp only [h2, h3, hv]
    rfl
  · intro text caps h1 h2 h3
    unfold extract_database_schema tryExceptBoundary extractBody pgSchemaFirst
      pgSchemaFallback
    rw [h1]
    rcases hc : capLookup caps 1 with _ | v
    · simp only [h2, hc]
      rfl
    · rw [hc] at h3
      have hv : v.isEmpty = true := by simpa [pyFalsyOpt] using h3
      simp only [h2, hc, hv]
      rfl
  · intro text h1 h2
    unfold extract_database_schema tryExceptBoundary extractBody pgSchemaFirst
      pgSchemaFallback
    rw [h1, h2]
    rfl

/-- Witness for C4 amended at a concrete input. -/
theorem pg_fallback_amended_witness :
    extract_database_schema (pgCreatePrefix ++ ( "y INT);".toList))
      SourceType.PostgreSQL = (none, some ( "public".toList)) :=
  pg_fallback_amended.1 ( "y INT);".toList) (by decide)

/-- C5: for every Oracle input, the database component equals the schema
component — on the normal path the code sets `database = schema`, and on
the exceptional path both are `None`. -/
theorem oracle_database_mirrors_schema (text : List Char) :
    (extract_database_schema text SourceType.Oracle).1 =
      (extract_database_schema text SourceType.Oracle).2 := by
  unfold extract_database_schema tryExceptBoundary extractBody
  rcases oracleSchema text with e | schema
  · rfl
  · rfl

/-- C6: for every PostgreSQL input, the database component is `None` — the
normal path sets `database = None`, and the exceptional path returns
`(None, None)`. -/
theorem pg_database_none (text : List Char) :
    (extract_database_schema text SourceType.PostgreSQL).1 = none := by
  unfold extract_database_schema tryExceptBoundary extractBody
  rcases pgSchemaFirst text with e | schema0
  · rfl
  · rfl

/-- Helper for C9: what `mssqlSchema` can return on the normal path. -/
theorem mssqlSchema_ok (text : List Char) (s : Option (List Char))
    (h : mssqlSchema text = Except.ok s) :
    s ≠ none ∧
      (reSearch mssqlCreatePat text = none → s = some ( "dbo".toList)) := by
  unfold mssqlSchema at h
  split at h
  · rename_i caps hm
    split at h
    · rename_i v hp
      simp only [Except.ok.injEq] at h
      exact ⟨by simp [← h], fun hc => by rw [hc] at hm; exact absurd hm (by simp)⟩
    · exact absurd h (by simp)
  · rename_i hm
    simp only [Except.ok.injEq] at h
    exact ⟨by simp [← h], fun _ => h.symm⟩

/-- C9: for every MSSQL input on the non-exceptional path, the schema
component is never `None`; it is `"dbo"` exactly whenever the CREATE
pattern finds no match — in particular also when the input contains no
CREATE statement at all. -/
theorem mssql_schema_never_none :
    ∀ (text : List Char) (db sch : Option (List Char)),
      extractBody text SourceType.MSSQL = Except.ok (db, sch) →
      sch ≠ none ∧
        (reSearch mssqlCreatePat text = none → sch = some ( "dbo".toList)) := by
  intro text db sch h
  unfold extractBody at h
  rcases hd : mssqlDatabase text with e | d <;> rw [hd] at h
  · exact absurd h (by simp)
  · rcases hs : mssqlSchema text with e | s <;> rw [hs] at h
    · exact absurd h (by simp)
    · simp only [Except.ok.injEq, Prod.mk.injEq] at h
      rw [← h.2]
      exact mssqlSchema_ok text s hs

/-- Witness for C9 at the concrete input `"hello"` (no CREATE statement). -/
theorem mssql_schema_never_none_witness :
    (some ( "dbo".toList) : Option (List Char)) ≠ none ∧
      (reSearch mssqlCreatePat ( "hello".toList) = none →
        (some ( "dbo".toList) : Option (List Char)) = some ( "dbo".toList)) :=
  mssql_schema_never_none ( "hello".toList) none (some ( "dbo".toList)) (by rfl)

/-! ## Claim theorems: cleanup and batch isolation -/

/-- C10: the cleaned SQL that `process_sql_code` passes to the converter
contains no `[` or `]` characters: after the `re.sub` removals of USE
clauses and CREATE qualifiers, `.replace("[", "").replace("]", "")` deletes
every remaining square bracket, for every input and every dialect. -/
theorem cleaned_sql_no_brackets (sql : List Char) :
    '[' ∉ cleanedSql sql ∧ ']' ∉ cleanedSql sql ∧
      ∀ (convert : List Char → Option (List Char)) (st : SourceType),
        (process_sql_code convert sql st).1 = convert (cleanedSql sql) := by
  refine ⟨?_, ?_, fun convert st => rfl⟩ <;>
    simp [cleanedSql, removeAll, List.mem_filter]

/-- The loop body appends to the accumulator. -/
theorem loopStep_acc (conv : List Char → Option (List Char))
    (acc : List (List Char × List Char)) (file : List Char × List Char) :
    loopStep conv acc file = acc ++ loopStep conv [] file := by
  unfold loopStep
  rcases conv file.2 with _ | out
  · simp
  · by_cases h : out.isEmpty <;> simp [h]

/-- Folding the loop from any accumulator prepends that accumulator. -/
theorem mainLoop_acc (conv : List Char → Option (List Char)) :
    ∀ (files : List (List Char × List Char)) (acc : List (List Char × List Char)),
      files.foldl (loopStep conv) acc = acc ++ mainLoop conv files := by
  intro files
  induction files with
  | nil => intro acc; simp [mainLoop]
  | cons f fs ih =>
    intro acc
    show fs.foldl (loopStep conv) (loopStep conv acc f) = _
    rw [ih (loopStep conv acc f), loopStep_acc, List.append_assoc]
    have : mainLoop conv (f :: fs) = loopStep conv [] f ++ mainLoop conv fs := by
      show fs.foldl (loopStep conv) (loopStep conv [] f) = _
      rw [ih (loopStep conv [] f)]
    rw [this]

/-- The batch loop distributes over list concatenation. -/
theorem mainLoop_append (conv : List Char → Option (List Char))
    (xs ys : List (List Char × List Char)) :
    mainLoop conv (xs ++ ys) = mainLoop conv xs ++ mainLoop conv ys := by
  unfold mainLoop
  rw [List.foldl_append, mainLoop_acc conv ys (List.foldl (loopStep conv) [] xs)]
  rfl

/-- `create_zip_file` writes exactly its entry list, in order. -/
theorem create_zip_file_entries :
    ∀ (acc l : List (List Char × List Char)),
      l.foldl (fun arch e => arch ++ [ e ]) acc = acc ++ l := by
  intro acc l
  induction l generalizing acc with
  | nil => simp
  | cons e es ih =>
    show es.foldl _ (acc ++ [ e ]) = _
    rw [ih (acc ++ [ e ])]
    simp

/-- C8: each file's presence and content in the archive depend only on that
file's own content (and the fixed conversion options): the archive of a
batch splits around any chosen file into the archives of the surrounding
files plus the entry computed from that file alone, and a file whose
conversion fails is simply omitted, leaving every other file's entry
unchanged. -/
theorem batch_isolation :
    (∀ (conv : List Char → Option (List Char))
        (xs ys : List (List Char × List Char)) (n c : List Char),
        create_zip_file (mainLoop conv (xs ++ (n, c) :: ys)) =
          create_zip_file (mainLoop conv xs) ++ loopStep conv [] (n, c) ++
            create_zip_file (mainLoop conv ys)) ∧
    (∀ (conv : List Char → Option (List Char))
        (xs ys : List (List Char × List Char)) (n c : List Char),
        conv c = none →
        create_zip_file (mainLoop conv (xs ++ (n, c) :: ys)) =
          create_zip_file (mainLoop conv (xs ++ ys))) := by
  have key : ∀ (conv : List Char → Option (List Char))
      (xs ys : List (List Char × List Char)) (n c : List Char),
      mainLoop conv (xs ++ (n, c) :: ys) =
        mainLoop conv xs ++ loopStep conv [] (n, c) ++ mainLoop conv ys := by
    intro conv xs ys n c
    rw [mainLoop_append]
    have : mainLoop conv ((n, c) :: ys) = loopStep conv [] (n, c) ++ mainLoop conv ys := by
      show ys.foldl (loopStep conv) (loopStep conv [] (n, c)) = _
      rw [mainLoop_acc]
    rw [this, List.append_assoc]
  constructor
  · intro conv xs ys n c
    unfold create_zip_file
    rw [create_zip_file_entries, create_zip_file_entries, create_zip_file_entries,
      key]
    simp
  · intro conv xs ys n c h
    unfold create_zip_file
    rw [create_zip_file_entries, create_zip_file_entries, key, mainLoop_append]
    have : loopStep conv [] (n, c) = [] := by
      unfold loopStep
      rw [h]
    rw [this]
    simp

/-- Witness for C8: a failing file is omitted from the archive. -/
theorem batch_isolation_witness :
    create_zip_file (mainLoop (fun _ => none) ([] ++ ([ 'a' ], []) :: [])) =
      create_zip_file (mainLoop (fun _ => none) ([] ++ [])) :=
  batch_isolation.2 (fun _ => none) [] [] [ 'a' ] [] rfl

/-! ## Claim theorems: `convert_code` -/

/-- `pyFindRel` returns exactly the first occurrence (relative index). -/
theorem pyFindRel_eq_some (n : List Char) :
    ∀ (h : List Char) (d : Nat),
      pyFindRel n h = some d ↔
        (n <+: h.drop d ∧ ∀ e, e < d → ¬ n <+: h.drop e) := by
  intro h
  induction h with
  | nil =>
    intro d
    unfold pyFindRel
    by_cases hn : n.isPrefixOf ([] : List Char)
    · rw [if_pos hn]
      rw [List.isPrefixOf_iff_prefix] at hn
      constructor
      · intro h0
        injection h0 with h0
        subst h0
        exact ⟨by simpa using hn, fun e he => absurd he (by omega)⟩
      · rintro ⟨h1, h2⟩
        rcases Nat.eq_zero_or_pos d with rfl | hd
        · rfl
        · exact absurd (by simpa using hn) (h2 0 hd)
    · rw [if_neg hn]
      rw [List.isPrefixOf_iff_prefix] at hn
      constructor
      · intro h0
        cases h0
      · rintro ⟨h1, h2⟩
        exact absurd (by simpa using h1) hn
  | cons c t ih =>
    intro d
    unfold pyFindRel
    by_cases hp : n.isPrefixOf (c :: t)
    · rw [if_pos hp]
      rw [List.isPrefixOf_iff_prefix] at hp
      constructor
      · intro h0
        injection h0 with h0
        subst h0
        exact ⟨by simpa using hp, fun e he => absurd he (by omega)⟩
      · rintro ⟨h1, h2⟩
        rcases Nat.eq_zero_or_pos d with rfl | hd
        · rfl
        · exact absurd (by simpa using hp) (h2 0 hd)
    · rw [if_neg hp]
      rw [List.isPrefixOf_iff_prefix] at hp
      constructor
      · intro h0
        rcases Option.map_eq_some'.mp h0 with ⟨d', hd', rfl⟩
        rcases (ih d').mp hd' with ⟨h1, h2⟩
        refine ⟨by simpa using h1, ?_⟩
        intro e he
        rcases e with _ | e'
        · simpa using hp
        · have he' : e' < d' := by omega
          simpa using h2 e' he'
      · rintro ⟨h1, h2⟩
        rcases d with _ | d'
        · exact absurd (by simpa using h1) hp
        · have ht : pyFindRel n t = some d' := by
            refine (ih d').mpr ⟨by simpa using h1, ?_⟩
            intro e he
            have h3 := h2 (e + 1) (by omega)
            simpa using h3
          rw [ht]
          rfl

/-- `pyFindRel` returns `none` exactly when the needle never occurs. -/
theorem pyFindRel_eq_none (n : List Char) :
    ∀ h : List Char, pyFindRel n h = none ↔ ∀ d : Nat, ¬ n <+: h.drop d := by
  intro h
  induction h with
  | nil =>
    unfold pyFindRel
    by_cases hn : n.isPrefixOf ([] : List Char)
    · rw [if_pos hn]
      rw [List.isPrefixOf_iff_prefix] at hn
      constructor
      · intro h0
        cases h0
      · intro h0
        exact absurd (by simpa using hn) (h0 0)
    · rw [if_neg hn]
      rw [List.isPrefixOf_iff_prefix] at hn
      exact ⟨fun _ d => by simpa using hn, fun _ => rfl⟩
  | cons c t ih =>
    unfold pyFindRel
    by_cases hp : n.isPrefixOf (c :: t)
    · rw [if_pos hp]
      rw [List.isPrefixOf_iff_prefix] at hp
      constructor
      · intro h0
        cases h0
      · intro h0
        exact absurd (by simpa using hp) (h0 0)
    · rw [if_neg hp]
      rw [List.isPrefixOf_iff_prefix] at hp
      constructor
      · intro h0 d
        have ht : pyFindRel n t = none := by
          cases hr : pyFindRel n t
          · rfl
          · rw [hr] at h0
            cases h0
        rcases d with _ | d'
        · simpa using hp
        · simpa using (ih.mp ht) d'
      · intro h0
        have ht : pyFindRel n t = none := ih.mpr (fun d => by simpa using h0 (d + 1))
        rw [ht]
        rfl

/-- Python `hay.find(needle, start)` characterized: it returns `j` exactly
when `j` is the first index at or after `start` where `needle` occurs. -/
theorem pyFind_eq_some (n hay : List Char) (s j : Nat) :
    pyFind n hay s = some j ↔
      (s ≤ j ∧ n <+: hay.drop j ∧ ∀ k, k < j → s ≤ k → ¬ n <+: hay.drop k) := by
  unfold pyFind
  constructor
  · intro h0
    rcases Option.map_eq_some'.mp h0 with ⟨d, hd, rfl⟩
    rcases (pyFindRel_eq_some n (hay.drop s) d).mp hd with ⟨h1, h2⟩
    rw [List.drop_drop] at h1
    refine ⟨by omega, by rwa [Nat.add_comm s d] at h1, ?_⟩
    intro k hk1 hk2
    have h3 := h2 (k - s) (by omega)
    rw [List.drop_drop] at h3
    have he : s + (k - s) = k := by omega
    rwa [he] at h3
  · rintro ⟨h1, h2, h3⟩
    have hd : pyFindRel n (hay.drop s) = some (j - s) := by
      refine (pyFindRel_eq_some n (hay.drop s) (j - s)).mpr ⟨?_, ?_⟩
      · rw [List.drop_drop]
        have he : s + (j - s) = j := by omega
        rwa [he]
      · intro e he
        rw [List.drop_drop]
        exact h3 (s + e) (by omega) (by omega)
    rw [hd]
    show some (j - s + s) = some j
    have he : j - s + s = j := by omega
    rw [he]

/-- Python `hay.find(needle, start)` returns `-1` exactly when the needle
does not occur at or after `start`. -/
theorem pyFind_eq_none (n hay : List Char) (s : Nat) :
    pyFind n hay s = none ↔ ∀ k, s ≤ k → ¬ n <+: hay.drop k := by
  unfold pyFind
  constructor
  · intro h0 k hk
    have hr : pyFindRel n (hay.drop s) = none := by
      cases hr : pyFindRel n (hay.drop s)
      · rfl
      · rw [hr] at h0
        cases h0
    have h1 := (pyFindRel_eq_none n (hay.drop s)).mp hr (k - s)
    rw [List.drop_drop] at h1
    have he : s + (k - s) = k := by omega
    rwa [he] at h1
  · intro h0
    have hr : pyFindRel n (hay.drop s) = none := by
      refine (pyFindRel_eq_none n (hay.drop s)).mpr ?_
      intro d
      rw [List.drop_drop]
      exact h0 (s + d) (by omega)
    rw [hr]
    rfl

/-- Python `needle in hay` characterized. -/
theorem containsSub_iff (n hay : List Char) :
    containsSub n hay = true ↔ ∃ k, n <+: hay.drop k := by
  unfold containsSub
  constructor
  · intro h0
    rcases Option.isSome_iff_exists.mp h0 with ⟨j, hj⟩
    rcases (pyFind_eq_some n hay 0 j).mp hj with ⟨_, h1, _⟩
    exact ⟨j, h1⟩
  · rintro ⟨k, hk⟩
    cases hf : pyFind n hay 0
    · exact absurd hk ((pyFind_eq_none n hay 0).mp hf k (Nat.zero_le k))
    · rfl

/-- C7: `convert_code` post-processes the model response by taking the
substring from the first occurrence of the fence-open token through the next
fence-close token, stripped; when the open token is absent, when no close
token follows it, or when the stripped block contains one of the
incomplete-conversion phrases case-insensitively (and on an API error), it
yields no output.  Occurrences are characterized declaratively via
first-occurrence conditions, and `containsSub` via existence of an
occurrence. -/
theorem convert_code_extraction_spec (resp : List Char) :
    (∀ e : String, convert_code (Except.error e) = none) ∧
    ((∀ k : Nat, ¬ fenceOpen <+: resp.drop k) →
        convert_code (Except.ok resp) = none) ∧
    (∀ i : Nat,
        fenceOpen <+: resp.drop i →
        (∀ k, k < i → ¬ fenceOpen <+: resp.drop k) →
        ((∀ k, i + 6 ≤ k → ¬ fenceClose <+: resp.drop k) →
            convert_code (Except.ok resp) = none) ∧
        (∀ j, i + 6 ≤ j → fenceClose <+: resp.drop j →
            (∀ k, k < j → i + 6 ≤ k → ¬ fenceClose <+: resp.drop k) →
            convert_code (Except.ok resp) =
              (if incompletePhrases.any
                    (fun p =>
                      containsSub p
                        (pyLower (pyStrip ((resp.drop (i + 6)).take (j - (i + 6)))))) then
                  none
                else some (pyStrip ((resp.drop (i + 6)).take (j - (i + 6))))))) ∧
    (∀ n hay : List Char, containsSub n hay = true ↔ ∃ k, n <+: hay.drop k) := by
  refine ⟨fun e => rfl, ?_, ?_, fun n hay => containsSub_iff n hay⟩
  · intro h0
    have hf : pyFind fenceOpen resp 0 = none :=
      (pyFind_eq_none fenceOpen resp 0).mpr (fun k _ => h0 k)
    show extract_sql_block resp = none
    unfold extract_sql_block
    rw [hf]
  · intro i hpre hfirst
    have hi : pyFind fenceOpen resp 0 = some i :=
      (pyFind_eq_some fenceOpen resp 0 i).mpr
        ⟨Nat.zero_le i, hpre, fun k hk _ => hfirst k hk⟩
    constructor
    · intro hno
      have hc : pyFind fenceClose resp (i + 6) = none :=
        (pyFind_eq_none fenceClose resp (i + 6)).mpr hno
      show extract_sql_block resp = none
      unfold extract_sql_block
      simp only [hi, hc]
    · intro j hj hjpre hjfirst
      have hjf : pyFind fenceClose resp (i + 6) = some j :=
        (pyFind_eq_some fenceClose resp (i + 6) j).mpr ⟨hj, hjpre, hjfirst⟩
      show extract_sql_block resp = _
      unfold extract_sql_block
      simp only [hi, hjf]

/-- Witness for C7 at a concrete response with fences around ` S `. -/
theorem convert_code_extraction_spec_witness :
    convert_code (Except.ok ( "a```sql S ```b".toList)) = some [ 'S' ] := by
  have h := ((convert_code_extraction_spec ( "a```sql S ```b".toList)).2.2.1 1
      (by decide) (by decide)).2 10 (by omega) (by decide) (by decide)
  rw [h]
  decide
